import Mathlib

/-!
Verification of the loris `resolver` module (resolver.py): identifier
resolution and cache population.  The Python source is shallowly embedded:
pure helpers become Lean functions, filesystem and HTTP effects become
explicit state passing over a `World` record, and Python exceptions become
an `Except` error type.  Standard-library collaborators (urllib quoting,
hashlib MD5, os.path joins) are reimplemented faithfully.
-/

set_option maxRecDepth 100000

/-- Character membership test on a list, models Python `c in s` / `s.rfind(c) != -1`. -/
def hasChar (c : Char) : List Char → Bool
  | [] => false
  | x :: xs => x = c || hasChar c xs

/-- Last element with default, models Python `l[-1]` on a nonempty list. -/
def listLastD : List α → α → α
  | [], d => d
  | [x], _ => x
  | _ :: x :: xs, d => listLastD (x :: xs) d

/-- First-match association lookup keyed by strings; models Python dict
access patterns used by the resolver (`d.get(k)` / `k in d` / `d[k]`). -/
def lookupStr : List (String × α) → String → Option α
  | [], _ => none
  | (k, v) :: rest, q => if k = q then some v else lookupStr rest q

/-- String membership in a list of strings. -/
def memStr : List String → String → Bool
  | [], _ => false
  | x :: xs, q => x = q || memStr xs q

/-- Boolean list-prefix test (used to model Python `str.startswith`). -/
def isPreOf : List Char → List Char → Bool
  | [], _ => true
  | _ :: _, [] => false
  | a :: as, b :: bs => a = b && isPreOf as bs

/-- Models Python `str.startswith(pat)`. -/
def pyStarts (s pat : String) : Bool := isPreOf pat.data s.data

/-- Split a character list at every occurrence of `c`; models Python
`s.split(c)` for a one-character separator (always returns ≥ 1 part). -/
def splitOnChar (c : Char) : List Char → List (List Char)
  | [] => [[]]
  | x :: xs =>
    if x = c then [] :: splitOnChar c xs
    else
      match splitOnChar c xs with
      | [] => [[x]]
      | p :: ps => (x :: p) :: ps

/-- Split at the first occurrence of `c` only; models Python `s.split(c, 1)`
when `c` occurs in `s`. -/
def splitFirst (c : Char) (s : String) : String × String :=
  let pre := s.data.takeWhile (fun x => !(x = c))
  (String.mk pre, String.mk (s.data.drop (pre.length + 1)))

/-- Whitespace strip on both ends; models Python `str.strip()` (ASCII blanks). -/
def stripSpaces (l : List Char) : List Char :=
  ((l.dropWhile (fun c => c.isWhitespace)).reverse.dropWhile (fun c => c.isWhitespace)).reverse

/-- Models `posixpath.join(a, b)` exactly: an absolute second argument
replaces the first; otherwise the parts are glued with at most one slash. -/
def pjoin (a b : String) : String :=
  if isPreOf ['/'] b.data then b
  else if a = "" then b
  else if listLastD a.data ' ' = '/' then a ++ b
  else a ++ "/" ++ b

/-- Models `posixpath.dirname(p)`: everything before the final slash, with
trailing slashes stripped unless the head is all slashes. -/
def dirname (p : String) : String :=
  let r := p.data.reverse
  if hasChar '/' r then
    let head := (r.dropWhile (fun c => !(c = '/'))).reverse
    if head.all (fun c => c = '/') then String.mk head
    else String.mk ((head.reverse.dropWhile (fun c => c = '/')).reverse)
  else ""

/-- ASCII hexadecimal digit test. -/
def isHexDigit (c : Char) : Bool :=
  ('0' ≤ c && c ≤ '9') || ('a' ≤ c && c ≤ 'f') || ('A' ≤ c && c ≤ 'F')

/-- Value of an ASCII hexadecimal digit. -/
def hexVal (c : Char) : Nat :=
  if '0' ≤ c && c ≤ '9' then c.toNat - 48
  else if 'a' ≤ c && c ≤ 'f' then c.toNat - 87
  else c.toNat - 55

/-- Models Python 2 `urllib.unquote`: each `%` followed by two hex digits is
replaced by the denoted byte; a `%` not followed by a valid hex pair is kept
verbatim and scanning continues after it (equivalent to the
split-on-`%` formulation of the stdlib). -/
def unquoteData : List Char → List Char
  | [] => []
  | [c] => [c]
  | [c, a] => c :: unquoteData [a]
  | c :: a :: b :: rest =>
    if c = '%' && isHexDigit a && isHexDigit b then
      Char.ofNat (16 * hexVal a + hexVal b) :: unquoteData rest
    else c :: unquoteData (a :: b :: rest)

/-- Models Python 2 `urllib.unquote` on strings. -/
def unquote (s : String) : String := String.mk (unquoteData s.data)

/-- Python 2 `urllib.always_safe` membership: ASCII letters, digits, `_.-`. -/
def isAlwaysSafe (c : Char) : Bool :=
  ('a' ≤ c && c ≤ 'z') || ('A' ≤ c && c ≤ 'Z') || ('0' ≤ c && c ≤ '9') ||
    c = '_' || c = '.' || c = '-'

/-- Uppercase hexadecimal digit character. -/
def hexCharUpper (n : Nat) : Char :=
  "0123456789ABCDEF".data.getD n '0'

/-- Lowercase hexadecimal digit character. -/
def hexCharLower (n : Nat) : Char :=
  "0123456789abcdef".data.getD n '0'

/-- Per-character encoding of Python 2 `urllib.quote_plus`: safe characters
pass through, a space becomes `+`, everything else becomes `%XX` (uppercase). -/
def quotePlusChar (c : Char) : List Char :=
  if isAlwaysSafe c then [c]
  else if c = ' ' then ['+']
  else ['%', hexCharUpper (c.toNat / 16 % 16), hexCharUpper (c.toNat % 16)]

/-- Models Python 2 `urllib.quote_plus` (ASCII identifiers). -/
def quote_plus (s : String) : String :=
  String.mk ((s.data.map quotePlusChar).flatten)

/-! ### MD5 (models `hashlib.md5(...).hexdigest()`)

A faithful executable MD5 over byte lists, using `Nat` arithmetic modulo
`2^32`.  The resolver hashes the `quote_plus`-re-encoded identifier, which
is pure ASCII, so bytes are the character codes. -/

/-- The 64 MD5 sine-derived round constants. -/
def md5K : List Nat :=
  [0xd76aa478, 0xe8c7b756, 0x242070db, 0xc1bdceee,
   0xf57c0faf, 0x4787c62a, 0xa8304613, 0xfd469501,
   0x698098d8, 0x8b44f7af, 0xffff5bb1, 0x895cd7be,
   0x6b901122, 0xfd987193, 0xa679438e, 0x49b40821,
   0xf61e2562, 0xc040b340, 0x265e5a51, 0xe9b6c7aa,
   0xd62f105d, 0x02441453, 0xd8a1e681, 0xe7d3fbc8,
   0x21e1cde6, 0xc33707d6, 0xf4d50d87, 0x455a14ed,
   0xa9e3e905, 0xfcefa3f8, 0x676f02d9, 0x8d2a4c8a,
   0xfffa3942, 0x8771f681, 0x6d9d6122, 0xfde5380c,
   0xa4beea44, 0x4bdecfa9, 0xf6bb4b60, 0xbebfbc70,
   0x289b7ec6, 0xeaa127fa, 0xd4ef3085, 0x04881d05,
   0xd9d4d039, 0xe6db99e5, 0x1fa27cf8, 0xc4ac5665,
   0xf4292244, 0x432aff97, 0xab9423a7, 0xfc93a039,
   0x655b59c3, 0x8f0ccc92, 0xffeff47d, 0x85845dd1,
   0x6fa87e4f, 0xfe2ce6e0, 0xa3014314, 0x4e0811a1,
   0xf7537e82, 0xbd3af235, 0x2ad7d2bb, 0xeb86d391]

/-- The 64 MD5 per-round left-rotation amounts. -/
def md5S : List Nat :=
  [7, 12, 17, 22, 7, 12, 17, 22, 7, 12, 17, 22, 7, 12, 17, 22,
   5, 9, 14, 20, 5, 9, 14, 20, 5, 9, 14, 20, 5, 9, 14, 20,
   4, 11, 16, 23, 4, 11, 16, 23, 4, 11, 16, 23, 4, 11, 16, 23,
   6, 10, 15, 21, 6, 10, 15, 21, 6, 10, 15, 21, 6, 10, 15, 21]

/-- 32-bit complement of a word below `2^32`. -/
def wnot (x : Nat) : Nat := 4294967295 - x

/-- 32-bit left rotation. -/
def rotl (x s : Nat) : Nat :=
  ((x <<< s) % 4294967296) ||| (x >>> (32 - s))

/-- Little-endian 64-bit byte encoding of a natural number. -/
def le8 (n : Nat) : List Nat :=
  (List.range 8).map (fun i => (n >>> (8 * i)) % 256)

/-- Little-endian 32-bit byte encoding of a word. -/
def le4 (n : Nat) : List Nat :=
  (List.range 4).map (fun i => (n >>> (8 * i)) % 256)

/-- MD5 padding: `0x80`, zeros to 56 mod 64, then the bit length
(little-endian).  The zero-fill count solves `len + 1 + k ≡ 56 (mod 64)`,
written as `(119 - len % 64) % 64` so the subtraction never truncates
(`len % 64 ≤ 63 < 119`). -/
def md5pad (msg : List Nat) : List Nat :=
  let len := msg.length
  let k := (119 - len % 64) % 64
  msg ++ [128] ++ List.replicate k 0 ++ le8 ((len * 8) % 18446744073709551616)

/-- Cut a byte list into 64-byte blocks (fuel-driven structural recursion). -/
def toBlocks : Nat → List Nat → List (List Nat)
  | 0, _ => []
  | _, [] => []
  | fuel + 1, l => l.take 64 :: toBlocks fuel (l.drop 64)

/-- The `g`-th little-endian 32-bit word of a 64-byte block. -/
def blockWord (b : List Nat) (g : Nat) : Nat :=
  b.getD (4 * g) 0 + 256 * b.getD (4 * g + 1) 0 +
    65536 * b.getD (4 * g + 2) 0 + 16777216 * b.getD (4 * g + 3) 0

/-- One MD5 round `i` on state `(a, b, c, d)` for a given block. -/
def md5round (blk : List Nat) (st : Nat × Nat × Nat × Nat) (i : Nat) :
    Nat × Nat × Nat × Nat :=
  let a := st.1
  let b := st.2.1
  let c := st.2.2.1
  let d := st.2.2.2
  let fg : Nat × Nat :=
    if i < 16 then ((b &&& c) ||| (wnot b &&& d), i)
    else if i < 32 then ((d &&& b) ||| (wnot d &&& c), (5 * i + 1) % 16)
    else if i < 48 then (b ^^^ c ^^^ d, (3 * i + 5) % 16)
    else (c ^^^ (b ||| wnot d), (7 * i) % 16)
  let f := (fg.1 + a + md5K.getD i 0 + blockWord blk fg.2) % 4294967296
  (d, (b + rotl f (md5S.getD i 0)) % 4294967296, b, c)

/-- Process one 64-byte block: 64 rounds, then add into the incoming state. -/
def md5block (st : Nat × Nat × Nat × Nat) (blk : List Nat) :
    Nat × Nat × Nat × Nat :=
  let r := (List.range 64).foldl (md5round blk) st
  ((st.1 + r.1) % 4294967296, (st.2.1 + r.2.1) % 4294967296,
   (st.2.2.1 + r.2.2.1) % 4294967296, (st.2.2.2 + r.2.2.2) % 4294967296)

/-- MD5 digest of a byte list, as the 16 output bytes. -/
def md5bytes (msg : List Nat) : List Nat :=
  let padded := md5pad msg
  let st := (toBlocks padded.length padded).foldl md5block
    (0x67452301, 0xefcdab89, 0x98badcfe, 0x10325476)
  le4 st.1 ++ le4 st.2.1 ++ le4 st.2.2.1 ++ le4 st.2.2.2

/-- Lowercase hex rendering of a byte. -/
def byteHex (b : Nat) : List Char := [hexCharLower (b / 16), hexCharLower (b % 16)]

/-- Models `hashlib.md5(s).hexdigest()` for an ASCII string `s`. -/
def md5hex (s : String) : String :=
  String.mk ((md5bytes (s.data.map Char.toNat)).map byteHex).flatten

/-! ### Errors, HTTP transport and filesystem model -/

/-- Operating-system error kinds surfaced by `os.makedirs`. -/
inductive OSErr where
  | eexist : OSErr
  | enoent : OSErr
deriving DecidableEq

/-- Python-level failure outcomes of the resolver code.

`resolverException status message` models `loris_exception.ResolverException`
(that module is not under src/; its calls here show it carries an HTTP
status and a message).  `nameError` models a `NameError` raised by
referencing an undefined variable.  `missingSchema` models the exception the
`requests` library raises when the URL passed to `requests.get`/`head` is
`None`.  `osError`/`ioError` model uncaught `OSError`/`IOError`. -/
inductive PyError where
  | resolverException : Nat → String → PyError
  | nameError : String → PyError
  | missingSchema : PyError
  | osError : OSErr → PyError
  | ioError : PyError
deriving DecidableEq

deriving instance DecidableEq for Except

/-- Whether an `Except` is a success. -/
def exceptIsOk : Except α β → Bool
  | .ok _ => true
  | .error _ => false

/-- An HTTP response as the resolver observes it: the status-ok predicate,
the numeric status code, an optional `content-type` header, and the body. -/
structure Response where
  ok : Bool
  status_code : Nat
  content_type : Option String
  body : String
deriving DecidableEq

/-- Request options assembled by `request_options` (client certificate pair,
basic-auth pair, TLS verification flag). -/
structure RequestOptions where
  cert : Option (String × String) := none
  auth : Option (String × String) := none
  verify : Bool := true
deriving DecidableEq

/-- HTTP method of an issued request. -/
inductive ReqMethod where
  | get : ReqMethod
  | head : ReqMethod
deriving DecidableEq

/-- The filesystem: a set of directories and a map from file paths to
contents, both as lists (first match wins for files). -/
structure FS where
  dirs : List String
  files : List (String × String)
deriving DecidableEq

/-- Content of the file at `p`, if any. -/
def FS.lookupFile (fs : FS) (p : String) : Option String :=
  lookupStr fs.files p

/-- Whether a file exists at `p`. -/
def FS.isFile (fs : FS) (p : String) : Bool :=
  (fs.lookupFile p).isSome

/-- Models `os.path.exists`: true for directories and files alike. -/
def FS.existsPath (fs : FS) (p : String) : Bool :=
  memStr fs.dirs p || fs.isFile p

/-- Create or overwrite the file at `p` (used for writes to a fresh
temporary file and for `shutil.copy`). -/
def FS.setFile (fs : FS) (p content : String) : FS :=
  { fs with files := (p, content) :: fs.files.filter (fun e => !(e.1 = p)) }

/-- Models `os.remove p`. -/
def FS.removeFile (fs : FS) (p : String) : FS :=
  { fs with files := fs.files.filter (fun e => !(e.1 = p)) }

/-- Models `os.rename src dst` (atomic move, replacing any file at `dst`). -/
def FS.rename (fs : FS) (src dst : String) : FS :=
  match fs.lookupFile src with
  | none => fs
  | some content =>
    { fs with files :=
        (dst, content) :: fs.files.filter (fun e => !(e.1 = src) && !(e.1 = dst)) }

/-- Models `os.makedirs p`: fails with `EEXIST` when the path already
exists, with `ENOENT` on the empty path; otherwise records the directory. -/
def FS.makedirs (fs : FS) (p : String) : Except OSErr FS :=
  if p = "" then .error .enoent
  else if fs.existsPath p then .error .eexist
  else .ok { fs with dirs := p :: fs.dirs }

/-- Models `glob.glob(join(dir, 'loris_cache.*'))` over the modeled files:
every file directly inside `dir` whose name extends `loris_cache.`
(the `*` of the pattern does not cross a slash; directory entries named
like cache files are not modeled, and the result order is the file-list
order, standing in for the unspecified listing order of `glob`). -/
def globLorisCache (fs : FS) (dir : String) : List String :=
  (fs.files.map Prod.fst).filter
    (fun p =>
      isPreOf (pjoin dir "loris_cache.").data p.data &&
        !(hasChar '/' (p.data.drop (pjoin dir "loris_cache.").data.length)))

/-- The world a resolver call runs in: the filesystem, the remote origin
(a fixed map from URL to response), a counter for fresh temporary-file
names, and logs of issued requests and emitted log lines. -/
structure World where
  fs : FS
  net : String → Response
  tmpCounter : Nat
  requests : List (ReqMethod × String)
  logs : List String

/-! ### Format detection (`_AbstractResolver.format_from_ident`, `constants`) -/

/-- Modelled from the spec: `constants.EXTENSION_MAP` is not under src/;
the spec gives "a fixed extension→format table (e.g. `tiff`→`tif`,
`jpeg`→`jpg`)". -/
def EXTENSION_MAP : List (String × String) :=
  [("tiff", "tif"), ("jpeg", "jpg")]

/-- Modelled from the spec: `constants.FORMATS_BY_MEDIA_TYPE` is not under
src/; the spec describes a media-type→format table for the formats
`jpg`, `tif`, `jp2`, `png`. -/
def FORMATS_BY_MEDIA_TYPE : List (String × String) :=
  [("image/jpeg", "jpg"), ("image/tiff", "tif"),
   ("image/jp2", "jp2"), ("image/png", "png")]

/-- Models `_AbstractResolver.format_from_ident` (resolver.py:62-69): the
substring after the last `.`; when shorter than 5 characters it is
lowercased and passed through `EXTENSION_MAP` (unknown keys pass through
unchanged); otherwise a 404 `ResolverException` is raised. -/
def format_from_ident (ident : String) : Except PyError String :=
  if hasChar '.' ident.data then
    let extension := listLastD (splitOnChar '.' ident.data) []
    if extension.length < 5 then
      let e := String.mk (extension.map Char.toLower)
      .ok ((lookupStr EXTENSION_MAP e).getD e)
    else
      .error (.resolverException 404 ("Format could not be determined for: " ++ ident ++ "."))
  else
    .error (.resolverException 404 ("Format could not be determined for: " ++ ident ++ "."))

/-! ### Configuration and `SimpleHTTPResolver` state -/

/-- A per-template configuration subsection (`[[site1]]` etc.). -/
structure TemplateConf where
  url : String
  cert : Option String := none
  key : Option String := none
  user : Option String := none
  pw : Option String := none
  ssl_check : Option Bool := none
deriving DecidableEq

/-- The configuration dictionary, with `none` for absent keys.  The
`source_pref` field models the `source_prefix` key.  `ident_regex` holds
the compiled validation regex as an abstract predicate (the `re` library is
an external collaborator).  `sections` holds the per-template subsections
consulted by `TemplateHTTPResolver`. -/
structure Config where
  cache_root : Option String := none
  source_pref : Option String := none
  source_suffix : Option String := none
  default_format : Option String := none
  head_resolvable : Option Bool := none
  uri_resolvable : Option Bool := none
  user : Option String := none
  pw : Option String := none
  cert : Option String := none
  key : Option String := none
  ssl_check : Option Bool := none
  ident_regex : Option (String → Bool) := none
  templates : Option String := none
  sections : List (String × TemplateConf) := []
  delimiter : Option String := none

/-- The attribute state a constructed `SimpleHTTPResolver` carries. -/
structure SimpleState where
  source_pref : String
  source_suffix : String
  default_format : Option String
  head_resolvable : Bool
  uri_resolvable : Bool
  user : Option String
  pw : Option String
  cert : Option String
  key : Option String
  ssl_check : Bool
  ident_regex : Option (String → Bool)
  cache_root : String

/-- Models `SimpleHTTPResolver.__init__` (resolver.py:149-185): reads the
optional settings with their defaults, then fails 500 when `cache_root` is
missing, then fails 500 when neither `uri_resolvable` nor a nonempty
`source_prefix` is configured. -/
def SimpleHTTPResolver.init (config : Config) : Except PyError SimpleState :=
  match Config.cache_root config with
  | none =>
    .error (.resolverException 500
      "Server Side Error: Configuration incomplete and cannot resolve. Missing setting for cache_root.")
  | some root =>
    let st : SimpleState :=
      { source_pref := (Config.source_pref config).getD ""
        source_suffix := (Config.source_suffix config).getD ""
        default_format := Config.default_format config
        head_resolvable := (Config.head_resolvable config).getD false
        uri_resolvable := (Config.uri_resolvable config).getD false
        user := Config.user config
        pw := Config.pw config
        cert := Config.cert config
        key := Config.key config
        ssl_check := (Config.ssl_check config).getD true
        ident_regex := Config.ident_regex config
        cache_root := root }
    if SimpleState.uri_resolvable st = false ∧ SimpleState.source_pref st = "" then
      .error (.resolverException 500
        "Server Side Error: Configuration incomplete and cannot resolve. Must either set uri_resolvable or source_prefix settings.")
    else .ok st

/-- Models `SimpleHTTPResolver.request_options` (resolver.py:187-195). -/
def request_options (st : SimpleState) : RequestOptions :=
  let o : RequestOptions := {}
  let o := match SimpleState.cert st, SimpleState.key st with
    | some c, some k => { o with cert := some (c, k) }
    | _, _ => o
  let o := match SimpleState.user st, SimpleState.pw st with
    | some u, some p => { o with auth := some (u, p) }
    | _, _ => o
  { o with verify := SimpleState.ssl_check st }

/-- Models `SimpleHTTPResolver._web_request_url` (resolver.py:231-242).
When the constructed URL is not http(s)-schemed, line 238 interpolates the
undefined name `source_url` into the warning string, so Python raises
`NameError` there before the intended 404 `ResolverException` is reached. -/
def SimpleHTTPResolver.web_request_url (st : SimpleState) (ident : String) :
    Except PyError (String × RequestOptions) :=
  let url :=
    if (pyStarts ident "http://" || pyStarts ident "https://") && SimpleState.uri_resolvable st then
      ident
    else
      SimpleState.source_pref st ++ ident ++ SimpleState.source_suffix st
  if !(pyStarts url "http://" || pyStarts url "https://") then
    .error (.nameError "source_url")
  else
    .ok (url, request_options st)

/-! ### Cache paths (`_cache_subroot`, `_ident_file_structure`, `cache_dir_path`) -/

/-- Chunks of three characters; models the slices `h[i:i+3]` for
`i in range(2, len(h), 3)` applied to `l = h[2:]` (fuel-driven). -/
def chunk3 : Nat → List Char → List (List Char)
  | 0, _ => []
  | _, [] => []
  | fuel + 1, l => l.take 3 :: chunk3 fuel (l.drop 3)

/-- Models `SimpleHTTPResolver._ident_file_structure` (resolver.py:261-271):
the MD5 hex digest of the re-quoted identifier, cut into a 2-character head
and 3-character chunks, joined as nested directories. -/
def ident_file_structure (ident : String) : String :=
  let ident_hash := md5hex (quote_plus ident)
  let pieces := ident_hash.data.take 2 :: chunk3 ident_hash.data.length (ident_hash.data.drop 2)
  (pieces.map String.mk).foldl pjoin ""

/-- Models `SimpleHTTPResolver._cache_subroot` (resolver.py:244-258): the
colon-separated pidspace segments (all but the last) become directories for
non-http identifiers, http(s) identifiers get the literal segment `http`,
and the hash-derived chain is appended. -/
def cache_subroot (ident : String) : String :=
  let sub :=
    if ident.data.take 6 ≠ "http:/".data ∧ ident.data.take 7 ≠ "https:/".data ∧
        (splitOnChar ':' ident.data).length > 1 then
      (((splitOnChar ':' ident.data).dropLast).map String.mk).foldl pjoin ""
    else if ident.data.take 6 = "http:/".data ∨ ident.data.take 7 = "https:/".data then
      "http"
    else ""
  pjoin sub (ident_file_structure ident)

/-- Models `SimpleHTTPResolver.cache_dir_path` (resolver.py:273-278); note
that it percent-decodes its argument itself. -/
def cache_dir_path (st : SimpleState) (ident : String) : String :=
  pjoin (SimpleState.cache_root st) (cache_subroot (unquote ident))

/-- Models `SimpleHTTPResolver.cached_file_for_ident` (resolver.py:284-290):
the first `loris_cache.*` file in the identifier's cache directory, if the
directory exists. -/
def cached_file_for_ident (st : SimpleState) (ident : String) (fs : FS) : Option String :=
  let cache_dir := cache_dir_path st ident
  if fs.existsPath cache_dir then (globLorisCache fs cache_dir).head?
  else none

/-- Models `SimpleHTTPResolver.get_format` (resolver.py:223-229). -/
def get_format (st : SimpleState) (ident : String) (potential_format : Option String) :
    Except PyError String :=
  match SimpleState.default_format st with
  | some f => .ok f
  | none =>
    match potential_format with
    | some f => .ok f
    | none => format_from_ident ident

/-- Models `SimpleHTTPResolver.cache_file_extension` (resolver.py:292-303):
the content-type header is mapped through `FORMATS_BY_MEDIA_TYPE`; an
unmapped or absent content-type falls back to `get_format` without it. -/
def cache_file_extension (st : SimpleState) (ident : String) (response : Response) :
    Except PyError String :=
  match Response.content_type response with
  | some ct =>
    match lookupStr FORMATS_BY_MEDIA_TYPE ct with
    | some f => get_format st ident (some f)
    | none => get_format st ident none
  | none => get_format st ident none

/-- Models `SimpleHTTPResolver._create_cache_dir` (resolver.py:305-312):
`makedirs` with the `EEXIST` outcome swallowed. -/
def create_cache_dir (fs : FS) (cache_dir : String) : Except OSErr FS :=
  match fs.makedirs cache_dir with
  | .ok fs2 => .ok fs2
  | .error e => if e = OSErr.eexist then .ok fs else .error e

/-! ### Cache population and resolution (effectful operations)

The `_web_request_url` method is dynamically dispatched between
`SimpleHTTPResolver` and `TemplateHTTPResolver`; the shared operations take
it as a parameter of type `UrlFn`.  A result of `.ok none` models the
template resolver's `(None, {})`: the callers pass that `None` straight to
`requests.get`/`requests.head`, which raises `MissingSchema`. -/

/-- Dynamically-dispatched `_web_request_url`. -/
def UrlFn : Type := String → Except PyError (Option (String × RequestOptions))

/-- `SimpleHTTPResolver`'s `_web_request_url` as a `UrlFn` (never `none`). -/
def SimpleHTTPResolver.urlFn (st : SimpleState) : UrlFn :=
  fun ident =>
    match SimpleHTTPResolver.web_request_url st ident with
    | .error e => .error e
    | .ok x => .ok (some x)

/-- Models `SimpleHTTPResolver.copy_to_cache` (resolver.py:314-345).
Note the decode applied twice: the method percent-decodes `ident` itself,
then `cache_dir_path` decodes again.  The streamed body is written to a
temporary file in the cache directory (`NamedTemporaryFile`; named here
from the world's counter, which never collides with the `loris_cache.`
canonical name); the canonical file is only created by the final rename
when it did not already exist. -/
def copy_to_cacheGen (st : SimpleState) (urlFn : UrlFn) (ident0 : String) (w : World) :
    Except PyError String × World :=
  let ident := unquote ident0
  let cache_dir := cache_dir_path st ident
  match create_cache_dir w.fs cache_dir with
  | .error e => (.error (.osError e), w)
  | .ok fs1 =>
    match urlFn ident with
    | .error e => (.error e, { w with fs := fs1 })
    | .ok none => (.error .missingSchema, { w with fs := fs1 })
    | .ok (some (source_url, _opts)) =>
      let w2 : World :=
        { w with fs := fs1, requests := w.requests ++ [(ReqMethod.get, source_url)] }
      let response := w.net source_url
      if response.ok = false then
        (.error (.resolverException 404
           ("Source image not found for identifier: " ++ ident ++
             ". Status code returned: " ++ toString response.status_code)),
         { w2 with logs := w2.logs ++
             ["Source image not found at " ++ source_url ++ " for identifier: " ++ ident ++
               ". Status code returned: " ++ toString response.status_code] })
      else
        match cache_file_extension st ident response with
        | .error e => (.error e, w2)
        | .ok extension =>
          let local_fp := pjoin cache_dir ("loris_cache." ++ extension)
          let tmp_name := pjoin cache_dir ("tmp" ++ toString w2.tmpCounter)
          let fs2 := FS.setFile fs1 tmp_name response.body
          if FS.existsPath fs2 local_fp = true then
            (.ok local_fp,
             { w2 with
               fs := FS.removeFile fs2 tmp_name
               tmpCounter := w2.tmpCounter + 1
               logs := w2.logs ++ ["another process downloaded src image " ++ local_fp] })
          else
            (.ok local_fp,
             { w2 with
               fs := FS.rename fs2 tmp_name local_fp
               tmpCounter := w2.tmpCounter + 1
               logs := w2.logs ++ ["Copied " ++ source_url ++ " to " ++ local_fp] })

/-- Models `SimpleHTTPResolver.is_resolvable` (resolver.py:197-221): regex
short-circuit, then cache-directory existence, then a HEAD or streamed GET. -/
def is_resolvableGen (st : SimpleState) (urlFn : UrlFn) (ident0 : String) (w : World) :
    Except PyError Bool × World :=
  let ident := unquote ident0
  let regex_ok :=
    match SimpleState.ident_regex st with
    | some pat => pat ident
    | none => true
  if regex_ok = false then (.ok false, w)
  else
    let fp := pjoin (SimpleState.cache_root st) (cache_subroot ident)
    if w.fs.existsPath fp = true then (.ok true, w)
    else
      match urlFn ident with
      | .error e => (.error e, w)
      | .ok none => (.error .missingSchema, w)
      | .ok (some (url, _opts)) =>
        let m := if SimpleState.head_resolvable st then ReqMethod.head else ReqMethod.get
        let w2 : World := { w with requests := w.requests ++ [(m, url)] }
        if (w.net url).ok then (.ok true, w2) else (.ok false, w2)

/-- Models `SimpleHTTPResolver.resolve` (resolver.py:347-352): serve the
cached file when one exists, otherwise populate the cache; the format is
derived from the cached file path (no content-type available here). -/
def resolveGen (st : SimpleState) (urlFn : UrlFn) (ident : String) (w : World) :
    Except PyError (String × String) × World :=
  match cached_file_for_ident st ident w.fs with
  | some cached_file_path =>
    (match get_format st cached_file_path none with
     | .error e => .error e
     | .ok f => .ok (cached_file_path, f), w)
  | none =>
    match copy_to_cacheGen st urlFn ident w with
    | (.error e, w2) => (.error e, w2)
    | (.ok cached_file_path, w2) =>
      (match get_format st cached_file_path none with
       | .error e => .error e
       | .ok f => .ok (cached_file_path, f), w2)

/-! ### `TemplateHTTPResolver` -/

/-- The attribute state of a constructed `TemplateHTTPResolver`. -/
structure TemplateState where
  simple : SimpleState
  templates : List (String × TemplateConf)
  delimiter : Option String

/-- Models `TemplateHTTPResolver.__init__` (resolver.py:386-405): it first
sets `uri_resolvable` to `True` in the caller's config mapping, then runs
the `SimpleHTTPResolver` constructor, then collects the configured template
subsections (names without a subsection are only warned about). -/
def TemplateHTTPResolver.init (config0 : Config) : Except PyError TemplateState :=
  let config := { config0 with uri_resolvable := some true }
  match SimpleHTTPResolver.init config with
  | .error e => .error e
  | .ok st =>
    let names :=
      (splitOnChar ',' ((Config.templates config).getD "").data).map
        (fun n => String.mk (stripSpaces n))
    let tmpls := names.filterMap
      (fun n => (lookupStr (Config.sections config) n).map (fun c => (n, c)))
    .ok { simple := st, templates := tmpls, delimiter := Config.delimiter config }

/-- Models Python `pattern % value` for the url patterns used here: the
first `%s` conversion receives the value. -/
def fmt1 : List Char → List Char → List Char
  | [], _ => []
  | [c], _ => [c]
  | c :: a :: rest, v =>
    if c = '%' && a = 's' then v ++ rest
    else c :: fmt1 (a :: rest) v

/-- Models Python `pattern % tuple(values)`: successive `%s` conversions
receive successive values (an arity mismatch, which Python rejects, leaves
remaining conversions untouched here; no claim exercises it). -/
def fmtList : List Char → List (List Char) → List Char
  | [], _ => []
  | [c], _ => [c]
  | c :: a :: rest, vs =>
    if c = '%' && a = 's' then
      match vs with
      | v :: vs2 => v ++ fmtList rest vs2
      | [] => fmtList rest []
    else c :: fmtList (a :: rest) vs

/-- Models `TemplateHTTPResolver._web_request_url` (resolver.py:407-439):
identifiers without a colon, and identifiers whose template name has no
configured subsection, yield no URL (`None`); otherwise the url pattern is
filled in and per-template options override the generic ones. -/
def TemplateHTTPResolver.web_request_url (ts : TemplateState) (ident0 : String) :
    Option (String × RequestOptions) :=
  if hasChar ':' ident0.data = false then none
  else
    let pr := splitFirst ':' ident0
    let name := pr.1
    let ident := pr.2
    match lookupStr ts.templates name with
    | none => none
    | some conf =>
      let url :=
        match ts.delimiter with
        | some d =>
          String.mk (fmtList (TemplateConf.url conf).data ((ident.splitOn d).map String.data))
        | none => String.mk (fmt1 (TemplateConf.url conf).data ident.data)
      let o := request_options ts.simple
      let o := match TemplateConf.cert conf, TemplateConf.key conf with
        | some c, some k => { o with cert := some (c, k) }
        | _, _ => o
      let o := match TemplateConf.user conf, TemplateConf.pw conf with
        | some u, some p => { o with auth := some (u, p) }
        | _, _ => o
      let o := match TemplateConf.ssl_check conf with
        | some v => { o with verify := v }
        | none => o
      some (url, o)

/-- `TemplateHTTPResolver`'s `_web_request_url` as a `UrlFn` (never raises;
`none` models the `(None, {})` result). -/
def TemplateHTTPResolver.urlFn (ts : TemplateState) : UrlFn :=
  fun ident => .ok (TemplateHTTPResolver.web_request_url ts ident)

/-! ### `SourceImageCachingResolver` -/

/-- The attribute state of a constructed `SourceImageCachingResolver`. -/
structure SourceCachingState where
  cache_root : String
  source_root : String

/-- Models `SourceImageCachingResolver.source_file_path` (resolver.py:462-464). -/
def SourceImageCachingResolver.source_file_path (st : SourceCachingState) (ident : String) : String :=
  pjoin (SourceCachingState.source_root st) (unquote ident)

/-- Models `SourceImageCachingResolver.cache_file_path` (resolver.py:466-468). -/
def SourceImageCachingResolver.cache_file_path (st : SourceCachingState) (ident : String) : String :=
  pjoin (SourceCachingState.cache_root st) (unquote ident)

/-- Models `SourceImageCachingResolver.in_cache` (resolver.py:470-471). -/
def SourceImageCachingResolver.in_cache (st : SourceCachingState) (ident : String) (fs : FS) : Bool :=
  fs.existsPath (SourceImageCachingResolver.cache_file_path st ident)

/-- Models `SourceImageCachingResolver.copy_to_cache` (resolver.py:473-479):
`makedirs(dirname(cache_fp))` is called bare — an `EEXIST` from a
pre-existing cache directory propagates uncaught — then the source file is
copied over (a missing source raises `IOError`). -/
def SourceImageCachingResolver.copy_to_cache (st : SourceCachingState) (ident : String)
    (fs : FS) : Except PyError FS :=
  let source_fp := SourceImageCachingResolver.source_file_path st ident
  let cache_fp := SourceImageCachingResolver.cache_file_path st ident
  match fs.makedirs (dirname cache_fp) with
  | .error e => .error (.osError e)
  | .ok fs1 =>
    match fs1.lookupFile source_fp with
    | none => .error .ioError
    | some content => .ok (fs1.setFile cache_fp content)

/-! ### Concrete fixtures used by witnesses and counterexample runs -/

/-- Fixture: a `SimpleHTTPResolver` state with a URL template
`http://s/<ident>` and cache root `/c`. -/
def stHttp : SimpleState :=
  { source_pref := "http://s/", source_suffix := "", default_format := none,
    head_resolvable := false, uri_resolvable := false, user := none, pw := none,
    cert := none, key := none, ssl_check := true, ident_regex := none,
    cache_root := "/c" }

/-- Fixture: a state with `uri_resolvable` set and no configured url parts
(a valid construction: `uri_resolvable` alone passes the config checks). -/
def stUri : SimpleState :=
  { stHttp with source_pref := "", uri_resolvable := true }

/-- Fixture: a template resolver with the single template
`site1 ↦ http://ex.org/%s`. -/
def tsSite : TemplateState :=
  { simple := stUri, templates := [("site1", { url := "http://ex.org/%s" })],
    delimiter := none }

/-- Fixture: an origin that always answers 200 with a JPEG body. -/
def netOk : String → Response :=
  fun _ => { ok := true, status_code := 200, content_type := some "image/jpeg", body := "IMG" }

/-- Fixture: an empty-cache world over the `netOk` origin. -/
def worldStart : World :=
  { fs := { dirs := [], files := [] }, net := netOk, tmpCounter := 0,
    requests := [], logs := [] }

/-- Fixture: a mounted-source resolver. -/
def scMnt : SourceCachingState := { cache_root := "/cache", source_root := "/src" }

/-- Fixture: a filesystem where the cache subdirectory `/cache/d` already
exists (as after caching a sibling image) and the source image is present. -/
def fsMnt : FS := { dirs := ["/cache/d"], files := [("/src/d/b.jpg", "IMG")] }

/-- Fixture: an origin that always answers 404. -/
def netNotFound : String → Response :=
  fun _ => { ok := false, status_code := 404, content_type := none, body := "" }

/-- Fixture: an empty-cache world over the 404 origin. -/
def worldNotFound : World := { worldStart with net := netNotFound }

/-- Fixture: a config carrying only `cache_root`. -/
def cfgWithRoot : Config := { cache_root := some "/c" }

/-- Fixture: one concrete successful cache population. -/
def c1run : Except PyError String × World :=
  copy_to_cacheGen stHttp (SimpleHTTPResolver.urlFn stHttp) "img" worldStart

/-! ### Helper lemmas -/

theorem md5hex_vector_empty :
    md5hex "" = "d41d8cd98f00b204e9800998ecf8427e" := by decide

theorem md5hex_vector_abc :
    md5hex "abc" = "900150983cd24fb0d6963f7d28e17f72" := by decide

theorem md5hex_vector_block_boundary :
    md5hex (String.mk (List.replicate 56 'a')) =
      "3b0c8ac703f828b04c6c197006d17218" := by decide

theorem md5hex_vector_two_blocks :
    md5hex (String.mk (List.replicate 120 'a')) =
      "5f61c0ccad4cac44c75ff505e1f1e537" := by decide

theorem str_data_inj {a b : String} (h : a.data = b.data) : a = b := by
  cases a; cases b; exact congrArg String.mk h

theorem str_append_left_cancel {s a b : String} (h : s ++ a = s ++ b) : a = b := by
  apply str_data_inj
  have hd : s.data ++ a.data = s.data ++ b.data := by
    rw [← String.data_append, ← String.data_append, h]
  exact List.append_cancel_left hd

theorem str_data_ne {a b : String} (h : a.data ≠ b.data) : a ≠ b := by
  intro hab; exact h (hab ▸ rfl)

theorem str_ne_empty_of_data {a : String} (h : a.data ≠ []) : a ≠ "" := by
  intro hab
  exact h (by simpa using congrArg String.data hab)

theorem pjoin_inj {d n1 n2 : String} (h1 : isPreOf ['/'] n1.data = false)
    (h2 : isPreOf ['/'] n2.data = false) (h : pjoin d n1 = pjoin d n2) : n1 = n2 := by
  unfold pjoin at h
  rw [h1, h2] at h
  simp only [Bool.false_eq_true, if_false] at h
  by_cases hd : d = ""
  · simpa [hd] using h
  · by_cases hs : listLastD d.data ' ' = '/'
    · simp only [hd, if_false, hs, if_true] at h
      exact str_append_left_cancel h
    · simp only [hd, if_false, hs, if_true] at h
      have h' : (d ++ "/") ++ n1 = (d ++ "/") ++ n2 := by
        simpa [String.append_assoc] using h
      exact str_append_left_cancel h'

theorem pjoin_ne_left {d n : String} (h : isPreOf ['/'] n.data = false)
    (hn : n.data ≠ []) : pjoin d n ≠ d := by
  unfold pjoin
  rw [h]
  simp only [Bool.false_eq_true, if_false]
  by_cases hd : d = ""
  · simp only [hd, if_true]
    intro he
    exact hn (by simpa using congrArg String.data he)
  · by_cases hs : listLastD d.data ' ' = '/'
    · simp only [hd, if_false, hs, if_true]
      intro he
      have : d.data ++ n.data = d.data := by
        have := congrArg String.data he
        simpa [String.data_append] using this
      have hlen := congrArg List.length this
      simp [List.length_append] at hlen
      exact hn (List.length_eq_zero.mp hlen)
    · simp only [hd, if_false, hs, if_true]
      intro he
      have hdd : d.data ++ ('/' :: n.data) = d.data := by
        have hq := congrArg String.data he
        simp only [String.data_append] at hq
        simp at hq
      have hlen := congrArg List.length hdd
      simp [List.length_append] at hlen

theorem pjoin_ne_empty {a : String} (b : String) (h : a ≠ "") : pjoin a b ≠ "" := by
  unfold pjoin
  have ha : a.data ≠ [] := by
    intro hd; exact h (str_data_inj (by simpa using hd))
  by_cases h1 : isPreOf ['/'] b.data = true
  · rw [if_pos h1]
    apply str_ne_empty_of_data
    cases hb : b.data with
    | nil => rw [hb] at h1; simp [isPreOf] at h1
    | cons c cs => simp
  · rw [if_neg h1, if_neg h]
    by_cases hs : listLastD a.data ' ' = '/'
    · rw [if_pos hs]
      apply str_ne_empty_of_data
      rw [String.data_append]
      intro hx
      exact ha (List.append_eq_nil.mp hx).1
    · rw [if_neg hs]
      apply str_ne_empty_of_data
      rw [String.data_append, String.data_append]
      intro hx
      exact ha (List.append_eq_nil.mp (List.append_eq_nil.mp hx).1).1

theorem lookupStr_filter_ne {α} (l : List (String × α)) {p q : String} (h : ¬ q = p) :
    lookupStr (l.filter (fun e => !(e.1 = p))) q = lookupStr l q := by
  induction l with
  | nil => rfl
  | cons e rest ih =>
    by_cases he : e.1 = p
    · have : (decide ¬(e.1 = p)) = false := by simp [he]
      simp only [List.filter_cons]
      rw [show (!(decide (e.1 = p))) = false by simp [he]]
      simp only [Bool.false_eq_true, if_false]
      rw [ih]
      obtain ⟨k, v⟩ := e
      simp only at he
      rw [show lookupStr ((k, v) :: rest) q = if k = q then some v else lookupStr rest q from rfl]
      rw [if_neg (by rw [he]; exact fun hq => h hq.symm)]
    · simp only [List.filter_cons]
      rw [show (!(decide (e.1 = p))) = true by simp [he]]
      simp only [if_true]
      obtain ⟨k, v⟩ := e
      by_cases hk : k = q
      · rw [show lookupStr ((k, v) :: (rest.filter (fun e => !(e.1 = p)))) q
            = if k = q then some v else lookupStr (rest.filter (fun e => !(e.1 = p))) q from rfl]
        rw [show lookupStr ((k, v) :: rest) q = if k = q then some v else lookupStr rest q from rfl]
        rw [if_pos hk, if_pos hk]
      · rw [show lookupStr ((k, v) :: (rest.filter (fun e => !(e.1 = p)))) q
            = if k = q then some v else lookupStr (rest.filter (fun e => !(e.1 = p))) q from rfl]
        rw [show lookupStr ((k, v) :: rest) q = if k = q then some v else lookupStr rest q from rfl]
        rw [if_neg hk, if_neg hk, ih]

theorem lookupStr_filter_self {α} (l : List (String × α)) (p : String) :
    lookupStr (l.filter (fun e => !(e.1 = p))) p = none := by
  induction l with
  | nil => rfl
  | cons e rest ih =>
    by_cases he : e.1 = p
    · simp only [List.filter_cons]
      rw [show (!(decide (e.1 = p))) = false by simp [he]]
      simp only [Bool.false_eq_true, if_false]
      exact ih
    · simp only [List.filter_cons]
      rw [show (!(decide (e.1 = p))) = true by simp [he]]
      simp only [if_true]
      obtain ⟨k, v⟩ := e
      simp only at he
      rw [show lookupStr ((k, v) :: (rest.filter (fun e => !(e.1 = p)))) p
          = if k = p then some v else lookupStr (rest.filter (fun e => !(e.1 = p))) p from rfl]
      rw [if_neg he]
      exact ih

theorem FS.lookupFile_setFile (fs : FS) (p b q : String) :
    FS.lookupFile (FS.setFile fs p b) q = if p = q then some b else FS.lookupFile fs q := by
  unfold FS.lookupFile FS.setFile
  by_cases h : p = q
  · subst h
    simp [lookupStr]
  · simp only [lookupStr, if_neg h]
    exact lookupStr_filter_ne fs.files (fun hq => h hq.symm)

theorem FS.lookupFile_removeFile (fs : FS) (p q : String) :
    FS.lookupFile (FS.removeFile fs p) q = if q = p then none else FS.lookupFile fs q := by
  unfold FS.lookupFile FS.removeFile
  by_cases h : q = p
  · rw [if_pos h, h]
    exact lookupStr_filter_self fs.files p
  · rw [if_neg h]
    exact lookupStr_filter_ne fs.files h

theorem FS.lookupFile_rename_self (fs : FS) (src dst content : String)
    (h : FS.lookupFile fs src = some content) :
    FS.lookupFile (FS.rename fs src dst) dst = some content := by
  unfold FS.rename
  rw [h]
  unfold FS.lookupFile
  rw [show lookupStr ((dst, content) ::
        fs.files.filter (fun e => !(e.1 = src) && !(e.1 = dst))) dst
      = if dst = dst then some content
        else lookupStr (fs.files.filter (fun e => !(e.1 = src) && !(e.1 = dst))) dst from rfl]
  rw [if_pos rfl]

theorem FS.existsPath_of_lookup_some {fs : FS} {q content : String}
    (h : FS.lookupFile fs q = some content) : FS.existsPath fs q = true := by
  unfold FS.existsPath FS.isFile
  rw [h]
  simp

theorem memStr_cons_ne {x q : String} (l : List String) (h : ¬ x = q) :
    memStr (x :: l) q = memStr l q := by
  simp [memStr, h]

theorem FS.existsPath_setFile_ne {fs : FS} {p q : String} (b : String) (h : ¬ p = q) :
    FS.existsPath (FS.setFile fs p b) q = FS.existsPath fs q := by
  unfold FS.existsPath FS.isFile
  rw [show (FS.setFile fs p b).dirs = fs.dirs from rfl]
  rw [FS.lookupFile_setFile, if_neg h]

theorem FS.existsPath_setFile_of {fs : FS} {q : String} (p b : String)
    (h : FS.existsPath fs q = true) : FS.existsPath (FS.setFile fs p b) q = true := by
  by_cases hp : p = q
  · subst hp
    unfold FS.existsPath FS.isFile
    rw [FS.lookupFile_setFile, if_pos rfl]
    simp
  · rw [FS.existsPath_setFile_ne b hp]
    exact h

theorem mem_fst_remove_set {fs : FS} {t b p : String}
    (h : p ∈ (FS.removeFile (FS.setFile fs t b) t).files.map Prod.fst) :
    p ∈ fs.files.map Prod.fst := by
  unfold FS.removeFile FS.setFile at h
  obtain ⟨e, he, hfst⟩ := List.mem_map.mp h
  have he2 := List.mem_of_mem_filter he
  rcases List.mem_cons.mp he2 with h1 | h2
  · exfalso
    have hp := List.of_mem_filter he
    rw [h1] at hp
    simp at hp
  · exact List.mem_map.mpr ⟨e, List.mem_of_mem_filter h2, hfst⟩

theorem mem_fst_rename_set {fs : FS} {t b d p : String}
    (h : p ∈ (FS.rename (FS.setFile fs t b) t d).files.map Prod.fst) :
    p = d ∨ p ∈ fs.files.map Prod.fst := by
  unfold FS.rename at h
  rw [FS.lookupFile_setFile, if_pos rfl] at h
  obtain ⟨e, he, hfst⟩ := List.mem_map.mp h
  rcases List.mem_cons.mp he with h1 | h2
  · left; rw [← hfst, h1]
  · right
    have hp := List.of_mem_filter h2
    have he2 := List.mem_of_mem_filter h2
    rcases List.mem_cons.mp he2 with h3 | h4
    · exfalso
      rw [h3] at hp
      simp at hp
    · exact List.mem_map.mpr ⟨e, List.mem_of_mem_filter h4, hfst⟩

theorem create_cache_dir_spec {fs fs1 : FS} {d : String}
    (h : create_cache_dir fs d = .ok fs1) :
    fs1.files = fs.files ∧ (fs1.dirs = fs.dirs ∨ fs1.dirs = d :: fs.dirs) := by
  unfold create_cache_dir FS.makedirs at h
  by_cases h0 : d = ""
  · rw [if_pos h0] at h
    simp at h
  · rw [if_neg h0] at h
    by_cases h1 : FS.existsPath fs d = true
    · rw [if_pos h1] at h
      simp only [show (OSErr.eexist = OSErr.eexist) = True by simp, if_true] at h
      have : fs = fs1 := by
        have := h
        simp at this
        exact this
      rw [← this]
      exact ⟨rfl, Or.inl rfl⟩
    · rw [if_neg h1] at h
      have h2 : ({ fs with dirs := d :: fs.dirs } : FS) = fs1 := by
        simp at h
        exact h
      rw [← h2]
      exact ⟨rfl, Or.inr rfl⟩

theorem create_cache_dir_ok (fs : FS) {d : String} (hd : d ≠ "") :
    ∃ fs1, create_cache_dir fs d = .ok fs1 ∧ fs1.files = fs.files ∧
      (fs1.dirs = fs.dirs ∨ fs1.dirs = d :: fs.dirs) := by
  unfold create_cache_dir FS.makedirs
  rw [if_neg hd]
  by_cases h1 : FS.existsPath fs d = true
  · rw [if_pos h1]
    exact ⟨fs, by simp, rfl, Or.inl rfl⟩
  · rw [if_neg h1]
    exact ⟨{ fs with dirs := d :: fs.dirs }, by simp, rfl, Or.inr rfl⟩

theorem FS.existsPath_dirs_congr {fs1 fs : FS} {d q : String}
    (hfiles : fs1.files = fs.files) (hdirs : fs1.dirs = fs.dirs ∨ fs1.dirs = d :: fs.dirs)
    (hq : ¬ d = q) : FS.existsPath fs1 q = FS.existsPath fs q := by
  unfold FS.existsPath FS.isFile FS.lookupFile
  rw [hfiles]
  rcases hdirs with h | h
  · rw [h]
  · rw [h, memStr_cons_ne fs.dirs hq]

theorem splitOnChar_ne_nil (c : Char) (l : List Char) : splitOnChar c l ≠ [] := by
  cases l with
  | nil => simp [splitOnChar]
  | cons x xs =>
    unfold splitOnChar
    by_cases h : x = c
    · simp [h]
    · simp only [h, if_false]
      cases splitOnChar c xs <;> simp

theorem splitOnChar_cons (c x : Char) (xs : List Char) :
    splitOnChar c (x :: xs) =
      if x = c then [] :: splitOnChar c xs
      else
        match splitOnChar c xs with
        | [] => [[x]]
        | p :: ps => (x :: p) :: ps := rfl

theorem splitOnChar_append_cons (c : Char) (u v : List Char) :
    splitOnChar c (u ++ c :: v) = splitOnChar c u ++ splitOnChar c v := by
  induction u with
  | nil =>
    rw [List.nil_append, splitOnChar_cons, if_pos rfl]
    rfl
  | cons x xs ih =>
    rw [List.cons_append, splitOnChar_cons, splitOnChar_cons c x xs, ih]
    by_cases h : x = c
    · rw [if_pos h, if_pos h]
      rfl
    · rw [if_neg h, if_neg h]
      cases hs : splitOnChar c xs with
      | nil => exact absurd hs (splitOnChar_ne_nil c xs)
      | cons p ps => simp

theorem splitOnChar_of_not_mem {c : Char} {l : List Char} (h : hasChar c l = false) :
    splitOnChar c l = [l] := by
  induction l with
  | nil => rfl
  | cons x xs ih =>
    unfold hasChar at h
    simp only [Bool.or_eq_false_iff] at h
    obtain ⟨h1, h2⟩ := h
    unfold splitOnChar
    rw [if_neg (by simpa using h1), ih h2]

theorem listLastD_append {l2 : List α} (l1 : List α) (d : α) (h : l2 ≠ []) :
    listLastD (l1 ++ l2) d = listLastD l2 d := by
  induction l1 with
  | nil => rfl
  | cons x xs ih =>
    rw [List.cons_append]
    cases hx : xs ++ l2 with
    | nil =>
      exfalso
      exact h (List.append_eq_nil.mp hx).2
    | cons y ys =>
      rw [show listLastD (x :: y :: ys) d = listLastD (y :: ys) d from rfl]
      rw [← hx, ih]

theorem hasChar_cons (c x : Char) (xs : List Char) :
    hasChar c (x :: xs) = (decide (x = c) || hasChar c xs) := rfl

theorem hasChar_append (c : Char) (u v : List Char) :
    hasChar c (u ++ v) = (hasChar c u || hasChar c v) := by
  induction u with
  | nil => simp [hasChar]
  | cons x xs ih =>
    rw [List.cons_append, hasChar_cons, hasChar_cons c x xs, ih, Bool.or_assoc]

theorem loris_name_data (ext : String) :
    ("loris_cache." ++ ext).data = 'l' :: ("oris_cache." ++ ext).data := by
  rw [String.data_append, String.data_append]
  rfl

theorem tmp_name_data (t : String) :
    ("tmp" ++ t).data = 't' :: ("mp" ++ t).data := by
  rw [String.data_append, String.data_append]
  rfl

theorem loris_name_no_slash (ext : String) :
    isPreOf ['/'] ("loris_cache." ++ ext).data = false := by
  rw [loris_name_data]
  rfl

theorem tmp_name_no_slash (t : String) :
    isPreOf ['/'] ("tmp" ++ t).data = false := by
  rw [tmp_name_data]
  rfl

theorem loris_name_ne_nil (ext : String) : ("loris_cache." ++ ext).data ≠ [] := by
  rw [loris_name_data]
  simp

theorem loris_ne_tmp (d ext t : String) :
    pjoin d ("loris_cache." ++ ext) ≠ pjoin d ("tmp" ++ t) := by
  intro h
  have heq := pjoin_inj (loris_name_no_slash ext) (tmp_name_no_slash t) h
  have hd := congrArg String.data heq
  rw [loris_name_data, tmp_name_data] at hd
  injection hd with h1 _
  exact absurd h1 (by decide)

theorem format_append_ext (s e : String) (he : hasChar '.' e.data = false) :
    format_from_ident (s ++ "." ++ e) =
      if e.data.length < 5 then
        Except.ok ((lookupStr EXTENSION_MAP (String.mk (e.data.map Char.toLower))).getD
          (String.mk (e.data.map Char.toLower)))
      else
        Except.error (.resolverException 404
          ("Format could not be determined for: " ++ (s ++ "." ++ e) ++ ".")) := by
  have hdata : (s ++ "." ++ e).data = s.data ++ '.' :: e.data := by
    rw [String.data_append, String.data_append, List.append_assoc]
    rfl
  have hlast : listLastD (splitOnChar '.' (s.data ++ '.' :: e.data)) [] = e.data := by
    rw [splitOnChar_append_cons, splitOnChar_of_not_mem he,
      listLastD_append (splitOnChar '.' s.data) ([] : List Char) (by simp)]
    rfl
  have hc : hasChar '.' (s.data ++ '.' :: e.data) = true := by
    rw [hasChar_append, hasChar_cons]
    simp
  simp only [format_from_ident, hdata, hlast, hc, if_true]

/-! ### Claim theorems -/

/-- C7: `format_from_ident` takes the substring after the last `.`; when it
is shorter than 5 characters it is lowercased and mapped through the fixed
`EXTENSION_MAP` (with unrecognized short extensions passing through
unchanged); an identifier with no `.`, or whose extension has 5 or more
characters, fails with the 404 `FormatUndetermined` error.  In particular
`img.tiff ↦ tif`, `img.JPEG ↦ jpg`, and `noext` fails. -/
theorem format_from_ident_spec :
    format_from_ident "img.tiff" = Except.ok "tif" ∧
    format_from_ident "img.JPEG" = Except.ok "jpg" ∧
    format_from_ident "noext" =
      Except.error (.resolverException 404 "Format could not be determined for: noext.") ∧
    (∀ ident : String, hasChar '.' ident.data = false →
      format_from_ident ident =
        Except.error (.resolverException 404
          ("Format could not be determined for: " ++ ident ++ "."))) ∧
    (∀ s e : String, hasChar '.' e.data = false → e.data.length < 5 →
      format_from_ident (s ++ "." ++ e) =
        Except.ok ((lookupStr EXTENSION_MAP (String.mk (e.data.map Char.toLower))).getD
          (String.mk (e.data.map Char.toLower)))) ∧
    (∀ s e : String, hasChar '.' e.data = false → 5 ≤ e.data.length →
      format_from_ident (s ++ "." ++ e) =
        Except.error (.resolverException 404
          ("Format could not be determined for: " ++ (s ++ "." ++ e) ++ "."))) := by
  refine ⟨by decide, by decide, by decide, ?_, ?_, ?_⟩
  · intro ident h
    simp [format_from_ident, h]
  · intro s e he hlen
    rw [format_append_ext s e he, if_pos hlen]
  · intro s e he hge
    rw [format_append_ext s e he, if_neg (by omega)]

/-- C7 witness: an unrecognized short extension passes through. -/
theorem format_from_ident_spec_witness :
    format_from_ident ("img" ++ "." ++ "bmp") = Except.ok "bmp" := by
  have h := format_from_ident_spec.2.2.2.2.1 "img" "bmp" (by decide) (by decide)
  exact h.trans (by decide)

theorem format_from_ident_isOk (ident : String) :
    exceptIsOk (format_from_ident ident) =
      (hasChar '.' ident.data &&
        decide ((listLastD (splitOnChar '.' ident.data) []).length < 5)) := by
  unfold format_from_ident
  by_cases h1 : hasChar '.' ident.data = true
  · rw [h1]
    simp only [if_true, Bool.true_and]
    by_cases h2 : (listLastD (splitOnChar '.' ident.data) []).length < 5
    · rw [if_pos h2]
      simp [exceptIsOk, h2]
    · rw [if_neg h2]
      simp [exceptIsOk, h2]
  · have h1f : hasChar '.' ident.data = false := by
      cases hx : hasChar '.' ident.data
      · rfl
      · exact absurd hx h1
    rw [h1f]
    simp [exceptIsOk]

/-- C9: an identifier ending in `.` yields the empty string as its format
rather than an error, and the `FormatUndetermined` failure occurs exactly
when the identifier has no `.` at all or the substring after the last `.`
has 5 or more characters. -/
theorem format_from_ident_empty_extension :
    (∀ s : String, format_from_ident (s ++ ".") = Except.ok "") ∧
    (∀ ident : String,
      exceptIsOk (format_from_ident ident) = false ↔
        (hasChar '.' ident.data = false ∨
          5 ≤ (listLastD (splitOnChar '.' ident.data) []).length)) := by
  constructor
  · intro s
    have h0 : s ++ "." = s ++ "." ++ "" := by
      rw [String.append_empty]
    rw [h0, format_append_ext s "" (by decide), if_pos (by decide)]
    decide
  · intro ident
    rw [format_from_ident_isOk]
    cases hx : hasChar '.' ident.data
    · simp
    · simp [Nat.not_lt]

/-- C9 witness: `img.` succeeds with the empty format; `noext` and a long
extension fail. -/
theorem format_from_ident_empty_extension_witness :
    format_from_ident ("img" ++ ".") = Except.ok "" ∧
    (exceptIsOk (format_from_ident "noext") = false ↔
      (hasChar '.' "noext".data = false ∨
        5 ≤ (listLastD (splitOnChar '.' "noext".data) []).length)) :=
  ⟨format_from_ident_empty_extension.1 "img",
   format_from_ident_empty_extension.2 "noext"⟩

/-- C3: the cache directory path is a deterministic function of the
percent-decoded identifier — identifiers with byte-identical decodings get
identical cache directories — and it factors as the configured root joined
with `cache_subroot` of the decoded identifier (pidspace or `http` segments
followed by the chunked MD5 digest of the re-encoded identifier). -/
theorem cache_dir_path_decode_deterministic :
    ∀ (st : SimpleState) (i1 i2 : String), unquote i1 = unquote i2 →
      cache_dir_path st i1 = cache_dir_path st i2 ∧
      cache_dir_path st i1 =
        pjoin (SimpleState.cache_root st)
          (pjoin
            (if (unquote i1).data.take 6 ≠ "http:/".data ∧
                (unquote i1).data.take 7 ≠ "https:/".data ∧
                (splitOnChar ':' (unquote i1).data).length > 1 then
              (((splitOnChar ':' (unquote i1).data).dropLast).map String.mk).foldl pjoin ""
            else if (unquote i1).data.take 6 = "http:/".data ∨
                (unquote i1).data.take 7 = "https:/".data then "http"
            else "")
            (ident_file_structure (unquote i1))) := by
  intro st i1 i2 h
  constructor
  · unfold cache_dir_path
    rw [h]
  · rfl

/-- C3 witness: `a%41` and `aA` decode identically, so they share one cache
directory. -/
theorem cache_dir_path_decode_deterministic_witness :
    unquote "a%41" = unquote "aA" ∧
    cache_dir_path stHttp "a%41" = cache_dir_path stHttp "aA" :=
  ⟨by decide, (cache_dir_path_decode_deterministic stHttp "a%41" "aA" (by decide)).1⟩

/-- C10: constructing a `TemplateHTTPResolver` stores `uri_resolvable :=
True` into the config before delegating, so the `uri_resolvable`/
`source_prefix` 500 error can never fire: construction fails exactly when
`cache_root` is missing (with that 500 error), and otherwise succeeds with
`uri_resolvable` set on the resulting state. -/
theorem template_init_only_cache_root_fatal :
    ∀ config : Config,
      (Config.cache_root config = none →
        TemplateHTTPResolver.init config =
          Except.error (.resolverException 500
            "Server Side Error: Configuration incomplete and cannot resolve. Missing setting for cache_root.")) ∧
      (∀ r : String, Config.cache_root config = some r →
        ∃ ts, TemplateHTTPResolver.init config = Except.ok ts ∧
          SimpleState.uri_resolvable (TemplateState.simple ts) = true ∧
          SimpleState.cache_root (TemplateState.simple ts) = r) := by
  intro config
  constructor
  · intro h
    unfold TemplateHTTPResolver.init SimpleHTTPResolver.init
    rw [show Config.cache_root { config with uri_resolvable := some true } =
      Config.cache_root config from rfl, h]
  · intro r h
    unfold TemplateHTTPResolver.init SimpleHTTPResolver.init
    rw [show Config.cache_root { config with uri_resolvable := some true } =
      Config.cache_root config from rfl, h]
    simp only []
    rw [if_neg (by simp)]
    exact ⟨_, rfl, rfl, rfl⟩

/-- C10 witness: without `cache_root` construction fails with the 500; with
only `cache_root` it succeeds and `uri_resolvable` is set. -/
theorem template_init_only_cache_root_fatal_witness :
    TemplateHTTPResolver.init ({} : Config) =
      Except.error (.resolverException 500
        "Server Side Error: Configuration incomplete and cannot resolve. Missing setting for cache_root.") ∧
    (∃ ts, TemplateHTTPResolver.init cfgWithRoot = Except.ok ts ∧
      SimpleState.uri_resolvable (TemplateState.simple ts) = true ∧
      SimpleState.cache_root (TemplateState.simple ts) = "/c") :=
  ⟨(template_init_only_cache_root_fatal {}).1 rfl,
   (template_init_only_cache_root_fatal cfgWithRoot).2 "/c" rfl⟩

/-- C4 (code bug at resolver.py:238): `_web_request_url` uses the identifier
verbatim for http(s) identifiers under `uri_resolvable`, and otherwise
concatenates the configured parts around it; but when the resulting URL is
not http(s)-schemed the warning interpolates the undefined name
`source_url`, so the call raises `NameError` instead of the documented 404
`ResolverException`. -/
theorem web_request_url_bad_url_name_error :
    SimpleHTTPResolver.web_request_url stUri "http://a/b" =
      Except.ok ("http://a/b", request_options stUri) ∧
    SimpleHTTPResolver.web_request_url stHttp "img" =
      Except.ok ("http://s/img", request_options stHttp) ∧
    SimpleHTTPResolver.web_request_url stUri "foo" =
      Except.error (.nameError "source_url") :=
  ⟨by decide, by decide, by decide⟩

/-- C5 (code bug): the template `_web_request_url` does yield "no URL" for
identifiers without a colon or with an unknown template name (and routes
known ones), but the inherited `is_resolvable`/`resolve` pass that `None`
straight to the HTTP client, which raises its invalid-URL error — the
outcome is a crash, not the documented quiet 404. -/
theorem template_unroutable_crashes :
    TemplateHTTPResolver.web_request_url tsSite "favicon.ico" = none ∧
    TemplateHTTPResolver.web_request_url tsSite "nosuch:42" = none ∧
    TemplateHTTPResolver.web_request_url tsSite "site1:42" =
      some ("http://ex.org/42", request_options stUri) ∧
    (is_resolvableGen stUri (TemplateHTTPResolver.urlFn tsSite) "nosuch:42" worldStart).1 =
      Except.error .missingSchema ∧
    (resolveGen stUri (TemplateHTTPResolver.urlFn tsSite) "favicon.ico" worldStart).1 =
      Except.error .missingSchema :=
  ⟨by decide, by decide, by decide, by decide, by decide⟩

/-- C6 (code bug at resolver.py:477): the HTTP strategy's
`_create_cache_dir` treats an existing directory as success, but
`SourceImageCachingResolver.copy_to_cache` calls `makedirs` bare, so a
pre-existing cache directory raises `OSError(EEXIST)` out of cache
population instead of being tolerated. -/
theorem mounted_copy_raises_eexist :
    SourceImageCachingResolver.copy_to_cache scMnt "d/b.jpg" fsMnt =
      Except.error (.osError .eexist) ∧
    create_cache_dir fsMnt "/cache/d" = Except.ok fsMnt :=
  ⟨by decide, by decide⟩

/-- C2 (code bug): `copy_to_cache` decodes the identifier and then
`cache_dir_path` decodes it again, while the cache lookup in `resolve`
decodes only once.  For an identifier such as `a%2541` (whose decoding
still contains an escape) the canonical file is published under the
twice-decoded directory, the once-decoded lookup keeps missing, and every
subsequent `resolve` issues another GET instead of hitting the cache. -/
theorem resolve_refetches_after_populate :
    exceptIsOk (resolveGen stHttp (SimpleHTTPResolver.urlFn stHttp) "a%2541" worldStart).1 = true ∧
    ((resolveGen stHttp (SimpleHTTPResolver.urlFn stHttp) "a%2541" worldStart).2).requests.length = 1 ∧
    ((resolveGen stHttp (SimpleHTTPResolver.urlFn stHttp) "a%2541" worldStart).2).fs.lookupFile
      (pjoin (cache_dir_path stHttp (unquote "a%2541")) "loris_cache.jpg") = some "IMG" ∧
    cached_file_for_ident stHttp "a%2541"
      ((resolveGen stHttp (SimpleHTTPResolver.urlFn stHttp) "a%2541" worldStart).2).fs = none ∧
    exceptIsOk (resolveGen stHttp (SimpleHTTPResolver.urlFn stHttp) "a%2541"
      ((resolveGen stHttp (SimpleHTTPResolver.urlFn stHttp) "a%2541" worldStart).2)).1 = true ∧
    ((resolveGen stHttp (SimpleHTTPResolver.urlFn stHttp) "a%2541"
      ((resolveGen stHttp (SimpleHTTPResolver.urlFn stHttp) "a%2541" worldStart).2)).2).requests.length = 2 :=
  ⟨by decide, by decide, by decide, by decide, by decide, by decide⟩

theorem FS.lookupFile_congr {fs1 fs2 : FS} (h : fs1.files = fs2.files) (p : String) :
    FS.lookupFile fs1 p = FS.lookupFile fs2 p := by
  unfold FS.lookupFile
  rw [h]

/-- C8: a non-success response during cache population fails with a 404
`ResolverException` whose public message carries the (decoded) identifier
and the status code; the internal source URL appears only in the logged
line, not in the public message. -/
theorem copy_to_cache_source_not_found :
    ∀ (st : SimpleState) (urlFn : UrlFn) (ident : String) (w : World)
      (u : String) (o : RequestOptions),
      SimpleState.cache_root st ≠ "" →
      urlFn (unquote ident) = Except.ok (some (u, o)) →
      (w.net u).ok = false →
      (copy_to_cacheGen st urlFn ident w).1 =
        Except.error (.resolverException 404
          ("Source image not found for identifier: " ++ unquote ident ++
            ". Status code returned: " ++ toString (w.net u).status_code)) ∧
      ((copy_to_cacheGen st urlFn ident w).2).logs =
        w.logs ++ ["Source image not found at " ++ u ++ " for identifier: " ++
          unquote ident ++ ". Status code returned: " ++ toString (w.net u).status_code] := by
  intro st urlFn ident w u o hroot hurl hok
  have hd : cache_dir_path st (unquote ident) ≠ "" :=
    pjoin_ne_empty (cache_subroot (unquote (unquote ident))) hroot
  obtain ⟨fs1, hc, _, _⟩ := create_cache_dir_ok w.fs hd
  have hstep : copy_to_cacheGen st urlFn ident w =
      (Except.error (.resolverException 404
         ("Source image not found for identifier: " ++ unquote ident ++
           ". Status code returned: " ++ toString (w.net u).status_code)),
       { w with fs := fs1
                requests := w.requests ++ [(ReqMethod.get, u)]
                logs := w.logs ++ ["Source image not found at " ++ u ++
                  " for identifier: " ++ unquote ident ++
                  ". Status code returned: " ++ toString (w.net u).status_code] }) := by
    unfold copy_to_cacheGen
    dsimp only
    rw [hc]
    dsimp only
    rw [hurl]
    dsimp only
    rw [if_pos hok]
  rw [hstep]
  exact ⟨rfl, rfl⟩

/-- C8 witness: a concrete failed population with its public message and
URL-bearing log line. -/
theorem copy_to_cache_source_not_found_witness :
    (copy_to_cacheGen stHttp (SimpleHTTPResolver.urlFn stHttp) "x" worldNotFound).1 =
      Except.error (.resolverException 404
        "Source image not found for identifier: x. Status code returned: 404") ∧
    ((copy_to_cacheGen stHttp (SimpleHTTPResolver.urlFn stHttp) "x" worldNotFound).2).logs =
      ["Source image not found at http://s/x for identifier: x. Status code returned: 404"] := by
  have h := copy_to_cache_source_not_found stHttp (SimpleHTTPResolver.urlFn stHttp) "x"
    worldNotFound "http://s/x" (request_options stHttp) (by decide) (by decide) (by decide)
  exact ⟨h.1.trans (by decide), h.2.trans (by decide)⟩

/-- C1: a successful `copy_to_cache` returns the canonical path
`loris_cache.<ext>` inside the identifier's cache directory, never rewrites
an existing file at that path (the temporary file is discarded instead),
publishes the body there when the path was free, and creates no file
other than (possibly) the canonical one — so a cache directory gains at
most one published file and a published file is never rewritten in place. -/
theorem simple_copy_never_overwrites :
    ∀ (st : SimpleState) (urlFn : UrlFn) (ident : String) (w : World) (fp : String) (w' : World),
      copy_to_cacheGen st urlFn ident w = (Except.ok fp, w') →
      (∃ ext, fp = pjoin (cache_dir_path st (unquote ident)) ("loris_cache." ++ ext)) ∧
      (∀ content, FS.lookupFile w.fs fp = some content →
        FS.lookupFile w'.fs fp = some content) ∧
      (FS.existsPath w.fs fp = false → ∃ b, FS.lookupFile w'.fs fp = some b) ∧
      (∀ p, p ∈ w'.fs.files.map Prod.fst → p = fp ∨ p ∈ w.fs.files.map Prod.fst) := by
  intro st urlFn ident w fp w' h
  unfold copy_to_cacheGen at h
  try dsimp only at h
  split at h
  · exact absurd h (by simp)
  next fs1 hc =>
    obtain ⟨hfiles, hdirs⟩ := create_cache_dir_spec hc
    split at h
    · exact absurd h (by simp)
    · exact absurd h (by simp)
    next source_url opts hu =>
      try dsimp only at h
      split at h
      · exact absurd h (by simp)
      next hok =>
        split at h
        · exact absurd h (by simp)
        next extension hext =>
          try dsimp only at h
          have hTL : pjoin (cache_dir_path st (unquote ident)) ("loris_cache." ++ extension) ≠
              pjoin (cache_dir_path st (unquote ident)) ("tmp" ++ toString w.tmpCounter) :=
            loris_ne_tmp _ extension (toString w.tmpCounter)
          have hLD : pjoin (cache_dir_path st (unquote ident)) ("loris_cache." ++ extension) ≠
              cache_dir_path st (unquote ident) :=
            pjoin_ne_left (loris_name_no_slash extension) (loris_name_ne_nil extension)
          split at h
          next hex =>
            injection h with h1 h2
            injection h1 with hfp
            subst hfp
            subst h2
            refine ⟨⟨extension, rfl⟩, ?_, ?_, ?_⟩
            · intro content hcont
              try dsimp only
              rw [FS.lookupFile_removeFile, if_neg hTL, FS.lookupFile_setFile,
                if_neg (fun he => hTL he.symm), FS.lookupFile_congr hfiles]
              exact hcont
            · intro hfalse
              exfalso
              have hex2 : FS.existsPath fs1
                  (pjoin (cache_dir_path st (unquote ident)) ("loris_cache." ++ extension)) = true := by
                have hx := hex
                rwa [FS.existsPath_setFile_ne _ (fun he => hTL he.symm)] at hx
              rw [FS.existsPath_dirs_congr hfiles hdirs (fun he => hLD he.symm)] at hex2
              rw [hfalse] at hex2
              simp at hex2
            · intro p hp
              right
              try dsimp only at hp
              have hm := mem_fst_remove_set hp
              rwa [hfiles] at hm
          next hex =>
            injection h with h1 h2
            injection h1 with hfp
            subst hfp
            subst h2
            refine ⟨⟨extension, rfl⟩, ?_, ?_, ?_⟩
            · intro content hcont
              exfalso
              have h1' : FS.existsPath w.fs
                  (pjoin (cache_dir_path st (unquote ident)) ("loris_cache." ++ extension)) = true :=
                FS.existsPath_of_lookup_some hcont
              rw [← FS.existsPath_dirs_congr hfiles hdirs (fun he => hLD he.symm)] at h1'
              exact hex (FS.existsPath_setFile_of _ _ h1')
            · intro _
              refine ⟨(w.net source_url).body, ?_⟩
              try dsimp only
              refine FS.lookupFile_rename_self _ _ _ _ ?_
              rw [FS.lookupFile_setFile]
              simp
            · intro p hp
              try dsimp only at hp
              rcases mem_fst_rename_set hp with h' | h'
              · exact Or.inl h'
              · right
                rwa [hfiles] at h'

/-- C1 witness: the concrete run succeeds, its canonical path was free
before, and the body is published there. -/
theorem simple_copy_never_overwrites_witness :
    exceptIsOk c1run.1 = true ∧
    (∃ fp, c1run.1 = Except.ok fp ∧ FS.existsPath worldStart.fs fp = false ∧
      ∃ b, FS.lookupFile c1run.2.fs fp = some b) := by
  refine ⟨by decide, ?_⟩
  cases heq : c1run.1 with
  | error e =>
    exfalso
    have hok : exceptIsOk c1run.1 = true := by decide
    rw [heq] at hok
    simp [exceptIsOk] at hok
  | ok fp =>
    refine ⟨fp, rfl, rfl, ?_⟩
    have hpair : c1run = (c1run.1, c1run.2) := rfl
    rw [heq] at hpair
    exact (simple_copy_never_overwrites stHttp (SimpleHTTPResolver.urlFn stHttp) "img"
      worldStart fp c1run.2 hpair).2.2.1 rfl
